import Mathlib

/-!
Verification of the monitoring/alerting platform against its specification.

The definitions below are a shallow embedding of the Python source:

* `processV3Events`, `processV3Proxy` — the per-proxy event loop of
  `ChainlinkContractsMonitor._get_v3_data`
  (src/alerter/src/monitors/contracts/chainlink.py, lines 282-437);
* `processV4Events`, `processV4Proxy` — the per-proxy event loop of
  `ChainlinkContractsMonitor._get_v4_data` (lines 439-584);
* `addressFromSources`, `getNodesAddress` —
  `ChainlinkContractsMonitor._get_nodes_address` (lines 157-205);
* `monitorTick` — `ChainlinkContractsMonitor._monitor` (lines 674-795);
* `mkChainlinkContractsMonitor` — the constructor (lines 42-100);
* `startStep`, `superviseStep` — the exception dispatch of `Monitor.start`
  (src/alerter/src/monitors/monitor.py, lines 104-131) and of
  `start_monitor` (src/alerter/src/monitors/starters.py, lines 248-265);
* `startAlertersProcesses`, `processPing` — the GitHub alerter manager
  (src/alerter/src/alerter/managers/github.py, lines 68-133);
* `addNewConfig` — `ChainlinkAlertsConfigsFactory.add_new_config`
  (src/alerter/src/configs/factory/chainlink_alerts_configs_factory.py);
* `onEventThrown` — `ConfigsManager._on_event_thrown`
  (src/alerter/src/config_manager/config_manager.py, lines 225-267).

External effects (web3 calls, prometheus fetches, RabbitMQ publishes,
process liveness) are passed in as explicit environment values, so every
definition is an executable pure function.
-/

/-- Insert / overwrite a key in an association list, mirroring a Python
dict assignment `d[k] = v`: an existing key keeps its position and gets
the new value, a new key is appended at the end.  (Python dict keys are
unique, so the first occurrence is the only one.) -/
def dictInsert {α : Type} (l : List (String × α)) (k : String) (v : α) :
    List (String × α) :=
  match l with
  | [] => [(k, v)]
  | p :: rest =>
      if p.1 == k then (k, v) :: rest else p :: dictInsert rest k v

/-- Number of entries of an association list carrying key `k`. -/
def countKey {α : Type} (l : List (String × α)) (k : String) : Nat :=
  (l.filter (fun p => p.1 == k)).length

/-- `pyIndex a l` mirrors Python's `l.index(a)` (first position of `a`),
returning `none` where Python raises `ValueError`. -/
def pyIndex {α : Type} [BEq α] (a : α) : List α → Option Nat
  | [] => none
  | x :: xs => if x == a then some 0 else (pyIndex a xs).map (· + 1)

/-- The five-field tuple returned by the aggregator contract's
`latestRoundData()` / `getRoundData(round_id)` calls.  The source reads
positions `[0]`, `[1]`, `[3]` and `[4]` of the tuple, which are
`roundId`, `answer`, `updatedAt` and `answeredInRound` respectively. -/
structure RoundData where
  roundId : Int
  answer : Int
  startedAt : Int
  updatedAt : Int
  answeredInRound : Int
deriving Repr, DecidableEq

/-- One `SubmissionReceived` event of a v3 aggregator, as read by
`_get_v3_data`: `event['args']['round']`, `event['args']['submission']`
and `event['blockNumber']`. -/
structure V3Event where
  round : Int
  submission : Int
  blockNumber : Int
deriving Repr, DecidableEq

/-- One entry of the `historicalRounds` list built by `_get_v3_data`.
The three `Option` fields are `None` exactly when `getRoundData` raised
`ContractLogicError` (consensus not reached). -/
structure V3Round where
  roundId : Int
  roundAnswer : Option Int
  roundTimestamp : Option Int
  answeredInRound : Option Int
  nodeSubmission : Int
deriving Repr, DecidableEq

/-- The `historicalRounds` entry `_get_v3_data` appends for an event:
filled from `getRoundData` when the call succeeds, all-null otherwise.
`gRD r = none` models `getRoundData(r)` raising `ContractLogicError`. -/
def mkV3Round (gRD : Int → Option RoundData) (e : V3Event) : V3Round :=
  match gRD e.round with
  | some rd =>
      { roundId := e.round, roundAnswer := some rd.answer,
        roundTimestamp := some rd.updatedAt,
        answeredInRound := some rd.answeredInRound,
        nodeSubmission := e.submission }
  | none =>
      { roundId := e.round, roundAnswer := none, roundTimestamp := none,
        answeredInRound := none, nodeSubmission := e.submission }

/-- The `for event in events` loop of `_get_v3_data` (lines 385-427).
Arguments are the `getRoundData` oracle, the filtered event list, the
mutable `current_block_height` (initially `head.number`) and the running
`last_round_observed`.  Returns `(historicalRounds, current_block_height,
last_round_observed)`: on a `ContractLogicError` the all-null round is
still appended, `current_block_height` becomes `event.blockNumber - 1`
and the loop breaks. -/
def processV3Events (gRD : Int → Option RoundData) :
    List V3Event → Int → Option Int → List V3Round × Int × Option Int
  | [], currentBlockHeight, lastRoundObserved =>
      ([], currentBlockHeight, lastRoundObserved)
  | e :: rest, currentBlockHeight, _ =>
      match gRD e.round with
      | some rd =>
          let r := processV3Events gRD rest currentBlockHeight (some e.round)
          ({ roundId := e.round, roundAnswer := some rd.answer,
             roundTimestamp := some rd.updatedAt,
             answeredInRound := some rd.answeredInRound,
             nodeSubmission := e.submission } :: r.1, r.2.1, r.2.2)
      | none =>
          ([{ roundId := e.round, roundAnswer := none,
              roundTimestamp := none, answeredInRound := none,
              nodeSubmission := e.submission }],
           e.blockNumber - 1, some e.round)

/-- `first_block_to_monitor` of `_get_v3_data` / `_get_v4_data` (lines
347-353 and 503-509): previous watermark plus one, defaulting to the
head on first sight, clamped to the head. -/
def firstBlockToMonitor (lastBlockMonitored : Option Int)
    (currentBlockHeight : Int) : Int :=
  let fb := match lastBlockMonitored with
    | some b => b + 1
    | none => currentBlockHeight
  if fb > currentBlockHeight then currentBlockHeight else fb

/-- Per-proxy environment of `_get_v3_data`: the results of the web3
calls made for one proxy contract. -/
structure V3ProxyEnv where
  headBlock : Int
  eventsInWindow : Int → Int → List V3Event
  getRoundData : Int → Option RoundData
  aggregatorAddress : String
  description : String
  latestRoundData : RoundData
  withdrawablePayment : Int

/-- One value of the dict returned by `_get_v3_data`. -/
structure V3ProxyData where
  contractVersion : Nat
  aggregatorAddress : String
  description : String
  latestRound : Int
  latestAnswer : Int
  latestTimestamp : Int
  answeredInRound : Int
  withdrawablePayment : Int
  historicalRounds : List V3Round
  lastRoundObserved : Option Int
deriving Repr, DecidableEq

/-- The body of `_get_v3_data`'s `for proxy_address in v3_contracts` loop
for one proxy (lines 333-435).  Besides the emitted data it returns the
new `last_block_monitored[node_id][proxy]` and
`last_round_observed[node_id][proxy]` entries. -/
def processV3Proxy (env : V3ProxyEnv) (lastBlockMonitored : Option Int)
    (lastRoundObserved : Option Int) : V3ProxyData × Int × Option Int :=
  let events := env.eventsInWindow
    (firstBlockToMonitor lastBlockMonitored env.headBlock) env.headBlock
  let r := processV3Events env.getRoundData events env.headBlock
    lastRoundObserved
  ({ contractVersion := 3,
     aggregatorAddress := env.aggregatorAddress,
     description := env.description,
     latestRound := env.latestRoundData.roundId,
     latestAnswer := env.latestRoundData.answer,
     latestTimestamp := env.latestRoundData.updatedAt,
     answeredInRound := env.latestRoundData.answeredInRound,
     withdrawablePayment := env.withdrawablePayment,
     historicalRounds := r.1,
     lastRoundObserved := r.2.2 }, r.2.1, r.2.2)

/-- One `NewTransmission` event of a v4 aggregator, as read by
`_get_v4_data`: `aggregatorRoundId`, the `observers` array of
transmitter indices, and the `observations` array. -/
structure V4Event where
  aggregatorRoundId : Int
  observers : List Nat
  observations : List Int
deriving Repr, DecidableEq

/-- One entry of the `historicalRounds` list built by `_get_v4_data`.
`nodeSubmission` is `none` when the operator's transmitter index is not
in the event's `observers` array. -/
structure V4Round where
  roundId : Int
  roundAnswer : Int
  roundTimestamp : Int
  answeredInRound : Int
  nodeSubmission : Option Int
  noOfObservations : Nat
  noOfTransmitters : Nat
deriving Repr, DecidableEq

/-- The `for event in events` loop of `_get_v4_data` (lines 549-574).
`gRD` models `getRoundData` (total here: in v4 the call is outside any
try/except), `nTransmitters` is `len(transmitters)` and
`nodeTransmitterIndex` is `transmitters.index(transformed_address)`.
Accumulates `(historical_rounds, last_round_observed)`; when the
operator's index is absent from `observers` the round is recorded with
`nodeSubmission = none` and `last_round_observed` is left untouched. -/
def processV4Events (gRD : Int → RoundData) (nTransmitters : Nat)
    (nodeTransmitterIndex : Nat) :
    List V4Event → List V4Round → Option Int → List V4Round × Option Int
  | [], rounds, lastRoundObserved => (rounds, lastRoundObserved)
  | e :: rest, rounds, lastRoundObserved =>
      let rd := gRD e.aggregatorRoundId
      match pyIndex nodeTransmitterIndex e.observers with
      | some answerIndex =>
          processV4Events gRD nTransmitters nodeTransmitterIndex rest
            (rounds ++ [{ roundId := e.aggregatorRoundId,
                          roundAnswer := rd.answer,
                          roundTimestamp := rd.updatedAt,
                          answeredInRound := rd.answeredInRound,
                          nodeSubmission :=
                            some (e.observations.getD answerIndex 0),
                          noOfObservations := e.observations.length,
                          noOfTransmitters := nTransmitters }])
            (some e.aggregatorRoundId)
      | none =>
          processV4Events gRD nTransmitters nodeTransmitterIndex rest
            (rounds ++ [{ roundId := e.aggregatorRoundId,
                          roundAnswer := rd.answer,
                          roundTimestamp := rd.updatedAt,
                          answeredInRound := rd.answeredInRound,
                          nodeSubmission := none,
                          noOfObservations := e.observations.length,
                          noOfTransmitters := nTransmitters }])
            lastRoundObserved

/-- Per-proxy environment of `_get_v4_data`: the results of the web3
calls made for one proxy contract. -/
structure V4ProxyEnv where
  headBlock : Int
  eventsInWindow : Int → Int → List V4Event
  getRoundData : Int → RoundData
  transmitters : List String
  transformedAddress : String
  aggregatorAddress : String
  description : String
  latestRoundData : RoundData
  owedPayment : Int

/-- One value of the dict returned by `_get_v4_data`. -/
structure V4ProxyData where
  contractVersion : Nat
  aggregatorAddress : String
  description : String
  latestRound : Int
  latestAnswer : Int
  latestTimestamp : Int
  answeredInRound : Int
  owedPayment : Int
  historicalRounds : List V4Round
  lastRoundObserved : Option Int
deriving Repr, DecidableEq

/-- The body of `_get_v4_data`'s `for proxy_address in v4_contracts` loop
for one proxy (lines 489-582).  Returns `none` when the operator is no
longer a transmitter of the contract (the `continue` at line 527, which
also skips the watermark update); otherwise `some` of the emitted data,
the new `last_block_monitored` entry and the new `last_round_observed`
entry. -/
def processV4Proxy (env : V4ProxyEnv) (lastBlockMonitored : Option Int)
    (lastRoundObserved : Option Int) :
    Option (V4ProxyData × Int × Option Int) :=
  let events := env.eventsInWindow
    (firstBlockToMonitor lastBlockMonitored env.headBlock) env.headBlock
  match pyIndex env.transformedAddress env.transmitters with
  | none => none
  | some nodeTransmitterIndex =>
      let r := processV4Events env.getRoundData env.transmitters.length
        nodeTransmitterIndex events [] lastRoundObserved
      some ({ contractVersion := 4,
              aggregatorAddress := env.aggregatorAddress,
              description := env.description,
              latestRound := env.latestRoundData.roundId,
              latestAnswer := env.latestRoundData.answer,
              latestTimestamp := env.latestRoundData.updatedAt,
              answeredInRound := env.latestRoundData.answeredInRound,
              owedPayment := env.owedPayment,
              historicalRounds := r.1,
              lastRoundObserved := r.2 }, env.headBlock, r.2)

/-- Outcome of `get_prometheus_metrics_data` for one prometheus url in
`_get_nodes_address` (lines 173-199): a caught request error (try the
next url), a `MetricNotFoundException` (give up on this node), or the
`eth_balance` samples, each carrying the operator `account` label or
not. -/
inductive PromOutcome
  | connError
  | metricNotFound
  | ok (subsets : List (Option String))
deriving Repr, DecidableEq

/-- A Chainlink node configuration as used by the monitor, with this
tick's prometheus outcomes attached to it (one per entry of
`node_prometheus_urls`, in order). -/
structure NodeConfigM where
  nodeId : String
  nodeName : String
  parentId : String
  promSources : List PromOutcome
deriving Repr, DecidableEq

/-- The inner url loop of `_get_nodes_address` for one node: request
errors fall through to the next url; both a successful metrics fetch and
a `MetricNotFoundException` break the loop, the former yielding the
first sample that carries an `account` label (if any). -/
def addressFromSources : List PromOutcome → Option String
  | [] => none
  | .connError :: rest => addressFromSources rest
  | .metricNotFound :: _ => none
  | .ok subsets :: _ => subsets.findSome? id

/-- The accumulator loop of `_get_nodes_address`: builds the
`{node_id: address}` dict and flags `error_occurred` whenever, after
processing a config, its `node_id` is still missing from the dict. -/
def getNodesAddressGo (configs : List NodeConfigM)
    (acc : List (String × String)) (err : Bool) :
    List (String × String) × Bool :=
  match configs with
  | [] => (acc, err)
  | c :: rest =>
      let acc' := match addressFromSources c.promSources with
        | some a => dictInsert acc c.nodeId a
        | none => acc
      let err' := if acc'.any (fun p => p.1 == c.nodeId) then err else true
      getNodesAddressGo rest acc' err'

/-- `_get_nodes_address` (lines 157-205): returns the address dict and
the `error_occurred` flag. -/
def getNodesAddress (configs : List NodeConfigM) :
    List (String × String) × Bool :=
  getNodesAddressGo configs [] false

/-- One entry of the wei-watchers catalog consumed by the monitor. -/
structure ContractData where
  proxyAddress : String
  contractAddress : String
  contractVersion : Nat
deriving Repr, DecidableEq

/-- The `{node_id: {v3: [...], v4: [...]}}` dict built by
`_filter_contracts_by_node`. -/
def NodeContractsMap : Type := List (String × (List String × List String))

/-- The mutable state of a `ChainlinkContractsMonitor` instance touched
by `__init__` and `_monitor`. -/
structure CLMonitorState where
  contractsUrl : String
  parentId : String
  evmNodes : List String
  nodeConfigs : List NodeConfigM
  nodeAddress : List (String × String)
  contractsData : List ContractData
  nodeContracts : NodeContractsMap
  lastBlockMonitored : List (String × List (String × Int))
  lastRoundObserved : List (String × List (String × Option Int))

/-- The exception raised by the `ChainlinkContractsMonitor` constructor
when a data-source list is empty. -/
inductive InitError
  | componentNotGivenEnoughDataSources (field : String)
deriving Repr, DecidableEq

/-- `ChainlinkContractsMonitor.__init__` (lines 42-100): raises
`ComponentNotGivenEnoughDataSourcesException` before any state exists
when `evm_nodes` or `node_configs` is empty, otherwise constructs the
monitor with empty address, catalog, participating-contracts and
watermark state. -/
def mkChainlinkContractsMonitor (weiwatchersUrl : String)
    (evmNodes : List String) (nodeConfigs : List NodeConfigM)
    (parentId : String) : Except InitError CLMonitorState :=
  if evmNodes.length = 0 ∨ nodeConfigs.length = 0 then
    .error (.componentNotGivenEnoughDataSources
      (if evmNodes.length = 0 then "evm_nodes" else "node_configs"))
  else
    .ok { contractsUrl := weiwatchersUrl, parentId := parentId,
          evmNodes := evmNodes, nodeConfigs := nodeConfigs,
          nodeAddress := [], contractsData := [], nodeContracts := [],
          lastBlockMonitored := [], lastRoundObserved := [] }

/-- Identity of a raw-data payload published by `_monitor` via
`_send_data`. -/
inductive Payload
  | couldNotRetrieveContracts
  | noSyncedSource
  | nodeData (nodeId : String)
deriving Repr, DecidableEq

/-- An observable event of one `_monitor` tick: a successful
`basic_publish_confirm` of a raw-data payload, or of the final
heartbeat. -/
inductive TickEvent
  | sent (p : Payload)
  | heartbeat
deriving Repr, DecidableEq

/-- The environment of one `_monitor` tick: outcomes of all external
calls the tick may make.  `none` in `catalogFetch` models a caught
request exception of `_get_chain_contracts`; `none` in `getDataOutcome`
models a caught request exception of `_get_data` for that node;
`deliverOk p = false` models `basic_publish_confirm` raising
`MessageWasNotDeliveredException` for payload `p`. -/
structure TickEnv where
  weiGateElapsed : Bool
  catalogFetch : Option (List ContractData)
  addrGateElapsed : Bool
  selectedNode : Option String
  filterOutcome : Option NodeContractsMap
  getDataOutcome : String → Option Unit
  processRetrievedFails : String → Bool
  processErrorFails : Bool
  deliverOk : Payload → Bool
  heartbeatDeliverOk : Bool

/-- The result of one `_monitor` tick: the new monitor state, the
publishes that succeeded (in order), whether a
`MessageWasNotDeliveredException` propagated out of the tick, whether
each refresh gate's `did_task` was called, and the final value of the
local `re_filter` flag. -/
structure TickOut where
  state : CLMonitorState
  events : List TickEvent
  raised : Bool
  weiDidTask : Bool
  addrDidTask : Bool
  reFilter : Bool

/-- The `for node_id, node_address in self.node_address.items()` loop of
`_monitor` (lines 744-771): a caught retrieval error or processing
error skips the node; a failed publish raises out of the tick. -/
def monitorNodeLoop (env : TickEnv) :
    List (String × String) → List TickEvent → List TickEvent × Bool
  | [], events => (events, false)
  | (nodeId, _) :: rest, events =>
      match env.getDataOutcome nodeId with
      | none => monitorNodeLoop env rest events
      | some _ =>
          if env.processRetrievedFails nodeId then
            monitorNodeLoop env rest events
          else if env.deliverOk (.nodeData nodeId) then
            monitorNodeLoop env rest (events ++ [.sent (.nodeData nodeId)])
          else
            (events, true)

/-- The unconditional heartbeat at the end of `_monitor` (lines
789-795), reached on every path that neither returned early nor raised;
yields the `(state, events, raised)` triple of the tick. -/
def tickSendHeartbeat (env : TickEnv) (st : CLMonitorState)
    (events : List TickEvent) : CLMonitorState × List TickEvent × Bool :=
  if env.heartbeatDeliverOk then (st, events ++ [.heartbeat], false)
  else (st, events, true)

/-- The publishing half of `_monitor` (lines 705-795), after the two
refresh-gate sections settled `data_retrieval_failed`, the state and
`re_filter`: source selection, error-payload or per-node publishing, and
the final heartbeat.  Yields the `(state, events, raised)` triple. -/
def tickBody (env : TickEnv) (dataRetrievalFailed : Bool)
    (st2 : CLMonitorState) (reFilter : Bool) :
    CLMonitorState × List TickEvent × Bool :=
  if !dataRetrievalFailed then
    match env.selectedNode with
    | none =>
        if env.processErrorFails then (st2, [], false)
        else if env.deliverOk .noSyncedSource then
          tickSendHeartbeat env st2 [.sent .noSyncedSource]
        else (st2, [], true)
    | some _ =>
        let st3 :=
          if reFilter then
            match env.filterOutcome with
            | some nc => { st2 with nodeContracts := nc }
            | none => st2
          else st2
        let r := monitorNodeLoop env st3.nodeAddress []
        if r.2 then (st3, r.1, true)
        else tickSendHeartbeat env st3 r.1
  else
    if env.processErrorFails then (st2, [], false)
    else if env.deliverOk .couldNotRetrieveContracts then
      tickSendHeartbeat env st2 [.sent .couldNotRetrieveContracts]
    else (st2, [], true)

/-- `ChainlinkContractsMonitor._monitor` (lines 674-795) over an
explicit environment of external outcomes. -/
def monitorTick (env : TickEnv) (st : CLMonitorState) : TickOut :=
  let catalogStep :
      Bool × CLMonitorState × Bool × Bool :=
    if env.weiGateElapsed then
      match env.catalogFetch with
      | some cd => (false, { st with contractsData := cd }, true, true)
      | none => (true, st, false, false)
    else (false, st, false, false)
  let dataRetrievalFailed := catalogStep.1
  let st1 := catalogStep.2.1
  let weiDid := catalogStep.2.2.1
  let reFilterCatalog := catalogStep.2.2.2
  let addrStep : CLMonitorState × Bool × Bool :=
    if env.addrGateElapsed then
      let r := getNodesAddress st1.nodeConfigs
      ({ st1 with nodeAddress := r.1 }, !r.2, true)
    else (st1, false, false)
  let st2 := addrStep.1
  let addrDid := addrStep.2.1
  let reFilter := reFilterCatalog || addrStep.2.2
  let body := tickBody env dataRetrievalFailed st2 reFilter
  { state := body.1, events := body.2.1, raised := body.2.2,
    weiDidTask := weiDid, addrDidTask := addrDid, reFilter := reFilter }

/-- Concrete v3 environment used to evaluate the collector: head block
200, a consensus-reached round 7 at block 160 and a consensus-pending
round 8 at block 170 (the oracle answers only round 7). -/
def c1Env : V3ProxyEnv :=
  { headBlock := 200,
    eventsInWindow := fun _ _ => [⟨7, 700, 160⟩, ⟨8, 800, 170⟩],
    getRoundData := fun r =>
      if r = 7 then some ⟨7, 700, 0, 1600, 7⟩ else none,
    aggregatorAddress := "agg", description := "desc",
    latestRoundData := ⟨8, 0, 0, 0, 7⟩, withdrawablePayment := 0 }

/-- Concrete v4 event whose `observers` array `[0, 2]` does not contain
transmitter index 1. -/
def c2Event : V4Event := ⟨5, [0, 2], [10, 20]⟩

/-- Concrete v4 environment: the operator is transmitter 1 of three, and
the only scanned `NewTransmission` event was observed by transmitters 0
and 2 only. -/
def c2Env : V4ProxyEnv :=
  { headBlock := 100, eventsInWindow := fun _ _ => [c2Event],
    getRoundData := fun _ => ⟨5, 42, 0, 99, 5⟩,
    transmitters := ["addrA", "addrB", "addrC"],
    transformedAddress := "addrB",
    aggregatorAddress := "agg", description := "desc",
    latestRoundData := ⟨5, 42, 0, 99, 5⟩, owedPayment := 0 }

/-- A freshly constructed monitor state used to evaluate `_monitor`
ticks on concrete inputs. -/
def emptyCLState : CLMonitorState :=
  { contractsUrl := "url", parentId := "parent", evmNodes := ["evm"],
    nodeConfigs := [], nodeAddress := [], contractsData := [],
    nodeContracts := [], lastBlockMonitored := [], lastRoundObserved := [] }

/-- Concrete tick environment in which no synced EVM source can be
selected and every publish is delivered. -/
def c5Env : TickEnv :=
  { weiGateElapsed := false, catalogFetch := none, addrGateElapsed := false,
    selectedNode := none, filterOutcome := none,
    getDataOutcome := fun _ => none,
    processRetrievedFails := fun _ => false,
    processErrorFails := false, deliverOk := fun _ => true,
    heartbeatDeliverOk := true }

/-- Concrete tick environment in which the `NoSyncedSource` publish is
not deliverable, so the tick raises
`MessageWasNotDeliveredException`. -/
def c7Env : TickEnv := { c5Env with deliverOk := fun _ => false }

/-- Concrete node configuration whose single prometheus source yields an
`account` label. -/
def c6Cfg : NodeConfigM := ⟨"node1", "n1", "parent", [.ok [some "0xabc"]]⟩

/-- Concrete state holding `c6Cfg`. -/
def c6St : CLMonitorState := { emptyCLState with nodeConfigs := [c6Cfg] }

/-- Concrete tick environment with both refresh gates elapsed, a
successful catalog fetch, a synced source and a successful contract
filter. -/
def c6Env : TickEnv :=
  { c5Env with
    weiGateElapsed := true
    catalogFetch := some []
    addrGateElapsed := true
    selectedNode := some "evm"
    filterOutcome := some [("node1", ([], []))] }

/-- The exception classes distinguished by `Monitor.start` and
`start_monitor`. -/
inductive MonitorExc
  | amqpChannelError
  | messageWasNotDelivered
  | amqpConnectionError
  | unexpected
deriving Repr, DecidableEq

/-- Outcome of one call of `self._monitor()` inside `Monitor.start`. -/
inductive RoundOutcome
  | ok
  | raised (e : MonitorExc)
deriving Repr, DecidableEq

/-- What `Monitor.start`'s loop body does next. -/
inductive StartAction
  | sleepThenLoop
  | loopNoSleep
  | propagate (e : MonitorExc)
deriving Repr, DecidableEq

/-- The exception dispatch of `Monitor.start` (monitor.py lines
104-131): a channel error re-runs the loop immediately (`continue`); a
`MessageWasNotDeliveredException` is logged and, like a successful
round, falls through to `connection.sleep(monitor_period)`; a connection
error or any other exception is re-raised out of `start()`. -/
def startStep : RoundOutcome → StartAction
  | .ok => .sleepThenLoop
  | .raised .amqpChannelError => .loopNoSleep
  | .raised .messageWasNotDelivered => .sleepThenLoop
  | .raised .amqpConnectionError => .propagate .amqpConnectionError
  | .raised .unexpected => .propagate .unexpected

/-- What `start_monitor`'s supervising loop does with an exception that
propagated out of `monitor.start()`. -/
inductive SuperviseAction
  | restartNoSleep
  | restartAfterSleep
deriving Repr, DecidableEq

/-- The exception dispatch of `start_monitor` (starters.py lines
248-265): AMQP connection/channel errors only log the stopped message
and re-enter the loop at once; any other exception disconnects, logs and
sleeps `RESTART_SLEEPING_PERIOD` before the loop restarts the monitor. -/
def superviseStep : MonitorExc → SuperviseAction
  | .amqpConnectionError => .restartNoSleep
  | .amqpChannelError => .restartNoSleep
  | .messageWasNotDelivered => .restartAfterSleep
  | .unexpected => .restartAfterSleep

/-- The name under which the GitHub alerter child is registered.
Modelled from the spec: the constant `GITHUB_ALERTER_NAME` lives in
`src.utils.constants.names`, which is not part of the sources; its exact
value is immaterial to the manager's behaviour. -/
def githubAlerterName : String := "GitHub Alerter"

/-- An observable event of the GitHub alerter manager: pushing and
sending a `ComponentReset` alert, starting a child process, or sending
the aggregate heartbeat (with its `running_processes` and
`dead_processes` name lists). -/
inductive ManagerEvent
  | componentReset (name : String)
  | processStart (name : String)
  | heartbeatSent (running dead : List String)
deriving Repr, DecidableEq

/-- `GithubAlerterManager._start_alerters_processes` (github.py lines
108-133) over the `alerter_process_dict`, modelled as an association
list `name → is_alive`.  A freshly started child process is alive.
Returns the new dict and the emitted events: when the child is missing
or dead, first the `ComponentReset` alert, then the process start. -/
def startAlertersProcesses (procDict : List (String × Bool)) :
    List (String × Bool) × List ManagerEvent :=
  if procDict.lookup githubAlerterName = some true then
    (procDict, [])
  else
    (dictInsert procDict githubAlerterName true,
     [.componentReset githubAlerterName, .processStart githubAlerterName])

/-- `GithubAlerterManager._process_ping` (github.py lines 68-106): the
heartbeat's `running_processes` / `dead_processes` lists are computed
from the dict first; if any child is dead `_start_alerters_processes`
runs; the heartbeat built beforehand is then sent. -/
def processPing (procDict : List (String × Bool)) :
    List (String × Bool) × List ManagerEvent :=
  let running := (procDict.filter (fun p => p.2)).map (fun p => p.1)
  let dead := (procDict.filter (fun p => !p.2)).map (fun p => p.1)
  let step :=
    if dead.length ≠ 0 then startAlertersProcesses procDict
    else (procDict, [])
  (step.1, step.2 ++ [.heartbeatSent running dead])

/-- One sub-record of a Chainlink alerts configuration payload: the two
fields `add_new_config` reads (`parent_id` and `name`). -/
structure SubCfg where
  parentId : String
  name : String
deriving Repr, DecidableEq

/-- The `ChainlinkNodeAlertsConfig` record built by `add_new_config`
from the name-indexed sub-records. -/
structure ChainlinkNodeAlertsConfig where
  parentId : String
  headTrackerCurrentHead : SubCfg
  headTrackerHeadsInQueue : SubCfg
  headTrackerHeadsReceivedTotal : SubCfg
  headTrackerNumHeadsDroppedTotal : SubCfg
  maxUnconfirmedBlocks : SubCfg
  processStartTimeSeconds : SubCfg
  txManagerGasBumpExceedsLimitTotal : SubCfg
  unconfirmedTransactions : SubCfg
  runStatusUpdateTotal : SubCfg
  ethBalanceAmount : SubCfg
  ethBalanceAmountIncrease : SubCfg
  nodeIsDown : SubCfg
deriving Repr, DecidableEq

/-- Exceptions `add_new_config` can raise: the explicit
`ParentIdsMissMatchInAlertsConfiguration`, or a `KeyError` from a dict
subscript. -/
inductive AddCfgError
  | parentIdsMissMatch
  | keyError
deriving Repr, DecidableEq

/-- A fallible dict subscript `d[k]`, raising `KeyError` when absent. -/
def lookupE (filtered : List (String × SubCfg)) (k : String) :
    Except AddCfgError SubCfg :=
  match filtered.lookup k with
  | some c => .ok c
  | none => .error .keyError

/-- The `ChainlinkNodeAlertsConfig(...)` construction of
`add_new_config` (factory lines 41-63), with each `filtered[name]`
subscript fallible. -/
def buildChainlinkNodeAlertsConfig (parentId : String)
    (filtered : List (String × SubCfg)) :
    Except AddCfgError ChainlinkNodeAlertsConfig := do
  let c1 ← lookupE filtered "head_tracker_current_head"
  let c2 ← lookupE filtered "head_tracker_heads_in_queue"
  let c3 ← lookupE filtered "head_tracker_heads_received_total"
  let c4 ← lookupE filtered "head_tracker_num_heads_dropped_total"
  let c5 ← lookupE filtered "max_unconfirmed_blocks"
  let c6 ← lookupE filtered "process_start_time_seconds"
  let c7 ← lookupE filtered "tx_manager_gas_bump_exceeds_limit_total"
  let c8 ← lookupE filtered "unconfirmed_transactions"
  let c9 ← lookupE filtered "run_status_update_total"
  let c10 ← lookupE filtered "eth_balance_amount"
  let c11 ← lookupE filtered "eth_balance_amount_increase"
  let c12 ← lookupE filtered "node_is_down"
  return { parentId := parentId,
           headTrackerCurrentHead := c1,
           headTrackerHeadsInQueue := c2,
           headTrackerHeadsReceivedTotal := c3,
           headTrackerNumHeadsDroppedTotal := c4,
           maxUnconfirmedBlocks := c5,
           processStartTimeSeconds := c6,
           txManagerGasBumpExceedsLimitTotal := c7,
           unconfirmedTransactions := c8,
           runStatusUpdateTotal := c9,
           ethBalanceAmount := c10,
           ethBalanceAmountIncrease := c11,
           nodeIsDown := c12 }

/-- `ChainlinkAlertsConfigsFactory.add_new_config(chain_name,
sent_configs)` (factory lines 19-68).  Returns the factory's configs map
after the call together with the call's outcome: the stored map is
modified only by the single assignment at the end of the source, so on
any raise it is returned unchanged. -/
def addNewConfig
    (configs : List (String × ChainlinkNodeAlertsConfig))
    (chainName : String) (sentConfigs : List (String × SubCfg)) :
    List (String × ChainlinkNodeAlertsConfig) ×
      Except AddCfgError (Bool × String) :=
  let configUpdated := configs.any (fun p => p.1 == chainName)
  match sentConfigs.lookup "1" with
  | none => (configs, .error .keyError)
  | some first =>
      let parentId := first.parentId
      if sentConfigs.any (fun p => !(p.2.parentId == parentId)) then
        (configs, .error .parentIdsMissMatch)
      else
        let filtered := sentConfigs.foldl
          (fun acc p => dictInsert acc p.2.name p.2) []
        match buildChainlinkNodeAlertsConfig parentId filtered with
        | .error e => (configs, .error e)
        | .ok cfg =>
            (dictInsert configs chainName cfg, .ok (configUpdated, parentId))

/-- A filesystem event delivered by the watchdog observer to
`ConfigsManager._on_event_thrown`. -/
structure FSEvent where
  eventType : String
  srcPath : String
deriving Repr, DecidableEq

/-- A parsed INI document: `section → {option: value}`. -/
def ConfigDict : Type := List (String × List (String × String))

/-- `ConfigsManager._on_event_thrown` (config_manager.py lines 225-267).
`getRoutingKey` and `normpath` stand for the external helpers
`routing_key.get_routing_key` and `os.path.normpath`; `parse path`
is the `ConfigParser().read(path)` result, `none` when it raised one of
the caught parsing errors.  Returns `some (routing_key, config_dict)`
when the event is pushed to the publish queue, `none` when it is
dropped: a deleted file publishes the empty dict under the file's
routing key, a parse error on any other event publishes nothing. -/
def onEventThrown (getRoutingKey : String → String → String)
    (normpath : String → String) (parse : String → Option ConfigDict)
    (configDirectory : String) (event : FSEvent) :
    Option (String × ConfigDict) :=
  if event.eventType = "deleted" then
    some (getRoutingKey event.srcPath (normpath configDirectory), [])
  else
    match parse event.srcPath with
    | none => none
    | some cfg =>
        some (getRoutingKey event.srcPath (normpath configDirectory), cfg)

/-- Concrete alerts-config payload whose sub-record `1` has parent `A`
and whose sub-record `2` has parent `B`. -/
def c4Sent : List (String × SubCfg) :=
  [("1", ⟨"A", "n1"⟩), ("2", ⟨"B", "n2"⟩)]

/-! ## Theorems -/

theorem processV3Events_ok_head (gRD : Int → Option RoundData)
    (events : List V3Event) (head : Int) (lro : Option Int)
    (h : ∀ e ∈ events, (gRD e.round).isSome) :
    (processV3Events gRD events head lro).2.1 = head := by
  induction events generalizing lro with
  | nil => rfl
  | cons e rest ih =>
      rcases Option.isSome_iff_exists.mp (h e (List.mem_cons_self e rest))
        with ⟨rd, hrd⟩
      simp only [processV3Events, hrd]
      exact ih (some e.round) (fun e2 he2 => h e2 (List.mem_cons_of_mem e he2))

theorem processV3Events_break (gRD : Int → Option RoundData)
    (pre : List V3Event) (e : V3Event) (post : List V3Event) (head : Int)
    (lro : Option Int)
    (hpre : ∀ e2 ∈ pre, (gRD e2.round).isSome)
    (hfail : gRD e.round = none) :
    processV3Events gRD (pre ++ e :: post) head lro
      = (pre.map (mkV3Round gRD) ++ [mkV3Round gRD e],
         e.blockNumber - 1, some e.round) := by
  induction pre generalizing lro with
  | nil =>
      simp only [List.nil_append, processV3Events, hfail, List.map_nil,
        List.nil_append, mkV3Round]
  | cons p pre ih =>
      rcases Option.isSome_iff_exists.mp (hpre p (List.mem_cons_self p pre))
        with ⟨rd, hrd⟩
      simp only [List.cons_append, processV3Events, hrd, List.append_eq]
      rw [ih (some p.round) (fun e2 he2 => hpre e2 (List.mem_cons_of_mem p he2))]
      simp [mkV3Round, hrd]

/-- C1.  For the v3 collector (`_get_v3_data`), on any proxy scan: if
`getRoundData` raises `ContractLogicError` for some event of the scanned
window (the first such event `e`), then the emitted `historicalRounds`
consist of the rounds of the events before `e` followed by `e`'s round
with `roundAnswer`, `roundTimestamp` and `answeredInRound` all null, the
events after `e` are not processed, and the new
`last_block_monitored[node_id][proxy]` is `e.blockNumber - 1`, strictly
below the head block; if `getRoundData` succeeds for every scanned
event, the new watermark equals the head block. -/
theorem v3_collector_watermark :
    (∀ (env : V3ProxyEnv) (lbm lro : Option Int) (pre post : List V3Event)
       (e : V3Event),
       env.eventsInWindow (firstBlockToMonitor lbm env.headBlock)
           env.headBlock = pre ++ e :: post →
       (∀ e2 ∈ pre, (env.getRoundData e2.round).isSome) →
       env.getRoundData e.round = none →
       e.blockNumber ≤ env.headBlock →
       (processV3Proxy env lbm lro).1.historicalRounds
           = pre.map (mkV3Round env.getRoundData)
             ++ [mkV3Round env.getRoundData e]
         ∧ (mkV3Round env.getRoundData e).roundAnswer = none
         ∧ (mkV3Round env.getRoundData e).roundTimestamp = none
         ∧ (mkV3Round env.getRoundData e).answeredInRound = none
         ∧ (processV3Proxy env lbm lro).2.1 = e.blockNumber - 1
         ∧ (processV3Proxy env lbm lro).2.1 < env.headBlock) ∧
    (∀ (env : V3ProxyEnv) (lbm lro : Option Int),
       (∀ e ∈ env.eventsInWindow (firstBlockToMonitor lbm env.headBlock)
           env.headBlock, (env.getRoundData e.round).isSome) →
       (processV3Proxy env lbm lro).2.1 = env.headBlock) := by
  constructor
  · intro env lbm lro pre post e hev hpre hfail hblk
    have hbreak := processV3Events_break env.getRoundData pre e post
      env.headBlock lro hpre hfail
    refine ⟨?_, ?_, ?_, ?_, ?_, ?_⟩
    · simp [processV3Proxy, hev, hbreak]
    · simp [mkV3Round, hfail]
    · simp [mkV3Round, hfail]
    · simp [mkV3Round, hfail]
    · simp [processV3Proxy, hev, hbreak]
    · simp only [processV3Proxy, hev, hbreak]
      omega
  · intro env lbm lro h
    simp only [processV3Proxy]
    exact processV3Events_ok_head env.getRoundData _ env.headBlock lro h

/-- Witness for C1 on `c1Env` (the spec's scenario 4): watermark 150,
head 200, consensus round 7 at block 160, no-consensus round 8 at block
170; the watermark ends at 169 < 200 and round 8 is recorded all-null. -/
theorem v3_collector_watermark_witness :
    (processV3Proxy c1Env (some 150) none).2.1 = 169
      ∧ (processV3Proxy c1Env (some 150) none).2.1 < 200
      ∧ (processV3Proxy c1Env (some 150) none).1.historicalRounds
          = [⟨7, some 700, some 1600, some 7, 700⟩,
             ⟨8, none, none, none, 800⟩] := by
  have h := v3_collector_watermark.1 c1Env (some 150) none
    [⟨7, 700, 160⟩] [] ⟨8, 800, 170⟩ rfl
    (by intro e2 he2; simp at he2; subst he2; decide)
    (by decide) (by decide)
  refine ⟨h.2.2.2.2.1, ?_, ?_⟩
  · have := h.2.2.2.2.2
    simpa [c1Env] using this
  · rw [h.1]
    decide

theorem pyIndex_eq_none_iff {α : Type} [BEq α] [LawfulBEq α] (a : α)
    (l : List α) : pyIndex a l = none ↔ a ∉ l := by
  induction l with
  | nil => simp [pyIndex]
  | cons x xs ih =>
      by_cases hx : x == a
      · simp [pyIndex, hx, eq_of_beq hx]
      · have hxa : ¬x = a := fun h => hx (by simp [h])
        simp [pyIndex, hx, ih, Option.map_eq_none', List.mem_cons]
        tauto

theorem processV4Events_append (gRD : Int → RoundData) (nT idx : Nat)
    (es1 es2 : List V4Event) (rounds : List V4Round) (lro : Option Int) :
    processV4Events gRD nT idx (es1 ++ es2) rounds lro
      = processV4Events gRD nT idx es2
          (processV4Events gRD nT idx es1 rounds lro).1
          (processV4Events gRD nT idx es1 rounds lro).2 := by
  induction es1 generalizing rounds lro with
  | nil => simp [processV4Events]
  | cons e rest ih =>
      simp only [List.cons_append, processV4Events]
      cases hpi : pyIndex idx e.observers <;>
        simp only [List.append_eq] <;> exact ih _ _

/-- Counterexample to C2 as stated.  On `c2Env` the operator is
transmitter 1, the only scanned `NewTransmission` event (round 5) has
`observers = [0, 2]`, and after the scan the recorded round has
`nodeSubmission = null` — but the new
`last_round_observed[node_id][proxy]` is `none`, not the claimed round
id 5: the watermark is left untouched, not advanced. -/
theorem v4_absent_observer_counterexample :
    (1 : Nat) ∉ c2Event.observers
      ∧ (processV4Proxy c2Env none none).map
          (fun r => (r.1.historicalRounds.map V4Round.nodeSubmission,
                     r.2.2))
          = some ([none], none)
      ∧ (processV4Proxy c2Env none none).map (fun r => r.2.2)
          ≠ some (some 5) := by
  refine ⟨by decide, by decide, by decide⟩

/-- C2 (amended).  For the v4 collector (`_get_v4_data`): for a
`NewTransmission` event whose `observers` array does not contain the
operator's transmitter index, the recorded historical round has
`nodeSubmission = null` and `last_round_observed` is NOT advanced for
that event: it keeps the value it had before the event was processed. -/
theorem v4_absent_observer (gRD : Int → RoundData) (nT idx : Nat)
    (es : List V4Event) (e : V4Event) (rounds : List V4Round)
    (lro : Option Int) (h : idx ∉ e.observers) :
    processV4Events gRD nT idx (es ++ [e]) rounds lro
      = ((processV4Events gRD nT idx es rounds lro).1
          ++ [{ roundId := e.aggregatorRoundId,
                roundAnswer := (gRD e.aggregatorRoundId).answer,
                roundTimestamp := (gRD e.aggregatorRoundId).updatedAt,
                answeredInRound := (gRD e.aggregatorRoundId).answeredInRound,
                nodeSubmission := none,
                noOfObservations := e.observations.length,
                noOfTransmitters := nT }],
         (processV4Events gRD nT idx es rounds lro).2) := by
  rw [processV4Events_append]
  have hpi : pyIndex idx e.observers = none :=
    (pyIndex_eq_none_iff idx e.observers).mpr h
  simp [processV4Events, hpi]

theorem lookup_dictInsert {α : Type} (l : List (String × α)) (k : String)
    (v : α) : (dictInsert l k v).lookup k = some v := by
  induction l with
  | nil => simp [dictInsert, List.lookup]
  | cons p l ih =>
      rcases p with ⟨k2, v2⟩
      by_cases hp : k2 = k
      · subst hp
        simp [dictInsert, List.lookup]
      · have h1 : (k2 == k) = false := beq_eq_false_iff_ne.mpr hp
        have h2 : (k == k2) = false := beq_eq_false_iff_ne.mpr (Ne.symm hp)
        simp [dictInsert, h1, h2, List.lookup, ih]

theorem countKey_dictInsert {α : Type} (l : List (String × α)) (k : String)
    (v : α) :
    countKey (dictInsert l k v) k
      = if countKey l k = 0 then 1 else countKey l k := by
  induction l with
  | nil => simp [dictInsert, countKey]
  | cons p l ih =>
      rcases p with ⟨k2, v2⟩
      by_cases hp : k2 = k
      · subst hp
        simp [dictInsert, countKey, List.filter_cons]
      · have h1 : (k2 == k) = false := beq_eq_false_iff_ne.mpr hp
        simp only [dictInsert, h1, Bool.false_eq_true, if_false, countKey,
          List.filter_cons]
        simpa [countKey] using ih

theorem lookup_some_countKey_pos {α : Type} (l : List (String × α))
    (k : String) (v : α) (h : l.lookup k = some v) : 1 ≤ countKey l k := by
  induction l with
  | nil => simp [List.lookup] at h
  | cons p l ih =>
      rcases p with ⟨k2, v2⟩
      by_cases hp : k2 = k
      · subst hp
        simp [countKey, List.filter_cons]
      · have h1 : (k2 == k) = false := beq_eq_false_iff_ne.mpr hp
        have h2 : (k == k2) = false := beq_eq_false_iff_ne.mpr (Ne.symm hp)
        simp only [List.lookup, h2] at h
        simpa [countKey, List.filter_cons, h1] using ih h

theorem countKey_zero_lookup {α : Type} (l : List (String × α))
    (k : String) (h : countKey l k = 0) : l.lookup k = none := by
  induction l with
  | nil => simp [List.lookup]
  | cons p l ih =>
      rcases p with ⟨k2, v2⟩
      by_cases hp : k2 = k
      · subst hp
        simp [countKey, List.filter_cons] at h
      · have h1 : (k2 == k) = false := beq_eq_false_iff_ne.mpr hp
        have h2 : (k == k2) = false := beq_eq_false_iff_ne.mpr (Ne.symm hp)
        simp only [List.lookup, h2]
        exact ih (by simpa [countKey, List.filter_cons, h1] using h)

/-- Counterexample to C3 as stated.  With the single child dead, the
ping handler emits the `ComponentReset` alert and the process start in
that order, but the heartbeat it then sends lists the child under
`dead_processes` and has an empty `running_processes` list: the
heartbeat reflects the statuses read before the restart, so it does not
report the child as running. -/
theorem manager_ping_dead_child_counterexample :
    processPing [(githubAlerterName, false)]
      = ([(githubAlerterName, true)],
         [.componentReset githubAlerterName,
          .processStart githubAlerterName,
          .heartbeatSent [] [githubAlerterName]])
    ∧ ManagerEvent.heartbeatSent [githubAlerterName] []
        ∉ (processPing [(githubAlerterName, false)]).2
    ∧ ManagerEvent.heartbeatSent [] [githubAlerterName]
        ∈ (processPing [(githubAlerterName, false)]).2 := by
  refine ⟨by decide, by decide, by decide⟩

/-- C3 (amended).  When the `GithubAlerterManager` processes a ping
while its child alerter process is dead, it publishes a
`ComponentReset` alert for that child before starting the replacement
child process, and the heartbeat sent in response to that ping reports
the child as dead — the heartbeat is built from the liveness statuses
read before the restart.  (With the child alive, no alert and no start
happen and the heartbeat reports it running.) -/
theorem manager_ping_dead_child :
    processPing [(githubAlerterName, false)]
      = ([(githubAlerterName, true)],
         [.componentReset githubAlerterName,
          .processStart githubAlerterName,
          .heartbeatSent [] [githubAlerterName]])
    ∧ processPing [(githubAlerterName, true)]
      = ([(githubAlerterName, true)],
         [.heartbeatSent [githubAlerterName] []]) := by
  decide

/-- C8.  `_start_alerters_processes` is idempotent: after one call the
child is registered and alive; a second call in succession changes
nothing and emits no event; a `ComponentReset` (followed by the process
start) is emitted exactly when the child was missing or dead; and if the
dict held at most one entry for the child name, it holds exactly one
afterwards. -/
theorem start_alerters_idempotent (procDict : List (String × Bool)) :
    ((startAlertersProcesses procDict).1.lookup githubAlerterName
        = some true)
    ∧ startAlertersProcesses (startAlertersProcesses procDict).1
        = ((startAlertersProcesses procDict).1, [])
    ∧ (procDict.lookup githubAlerterName = some true →
        (startAlertersProcesses procDict).2 = [])
    ∧ (procDict.lookup githubAlerterName ≠ some true →
        (startAlertersProcesses procDict).2
          = [.componentReset githubAlerterName,
             .processStart githubAlerterName])
    ∧ (countKey procDict githubAlerterName ≤ 1 →
        countKey (startAlertersProcesses procDict).1 githubAlerterName
          = 1) := by
  by_cases hl : procDict.lookup githubAlerterName = some true
  · have h1 : startAlertersProcesses procDict = (procDict, []) := by
      simp [startAlertersProcesses, hl]
    rw [h1]
    refine ⟨hl, by simp [startAlertersProcesses, hl], fun _ => rfl,
      fun hc => absurd hl hc, fun hcount => ?_⟩
    show countKey procDict githubAlerterName = 1
    have := lookup_some_countKey_pos procDict githubAlerterName true hl
    omega
  · have h1 : startAlertersProcesses procDict
        = (dictInsert procDict githubAlerterName true,
           [.componentReset githubAlerterName,
            .processStart githubAlerterName]) := by
      simp [startAlertersProcesses, hl]
    rw [h1]
    have h2 := lookup_dictInsert procDict githubAlerterName true
    refine ⟨h2, by simp [startAlertersProcesses, h2], fun hc => absurd hc hl,
      fun _ => rfl, fun hcount => ?_⟩
    show countKey (dictInsert procDict githubAlerterName true)
      githubAlerterName = 1
    rw [countKey_dictInsert]
    split <;> omega

/-- Witness for C8 on the empty process dict: the first call registers
one live child and emits the reset-then-start pair, the second call is a
no-op. -/
theorem start_alerters_idempotent_witness :
    (startAlertersProcesses []).1.lookup githubAlerterName = some true
    ∧ startAlertersProcesses (startAlertersProcesses []).1
        = ((startAlertersProcesses []).1, [])
    ∧ (startAlertersProcesses []).2
        = [.componentReset githubAlerterName,
           .processStart githubAlerterName]
    ∧ countKey (startAlertersProcesses []).1 githubAlerterName = 1 := by
  have h := start_alerters_idempotent []
  exact ⟨h.1, h.2.1, h.2.2.2.1 (by decide), h.2.2.2.2 (by decide)⟩

/-- C9.  The `ChainlinkContractsMonitor` constructor raises
`ComponentNotGivenEnoughDataSourcesException` exactly when `evm_nodes`
or `node_configs` is empty (naming the `evm_nodes` field first), and it
raises before any monitor state exists; when both lists are non-empty it
builds the monitor with empty address, catalog,
participating-contracts and watermark state. -/
theorem constructor_data_sources (url : String) (evmNodes : List String)
    (nodeConfigs : List NodeConfigM) (parentId : String) :
    ((∃ e, mkChainlinkContractsMonitor url evmNodes nodeConfigs parentId
        = .error e) ↔ evmNodes = [] ∨ nodeConfigs = [])
    ∧ (evmNodes = [] →
        mkChainlinkContractsMonitor url evmNodes nodeConfigs parentId
          = .error (.componentNotGivenEnoughDataSources "evm_nodes"))
    ∧ (evmNodes ≠ [] → nodeConfigs = [] →
        mkChainlinkContractsMonitor url evmNodes nodeConfigs parentId
          = .error (.componentNotGivenEnoughDataSources "node_configs"))
    ∧ (∀ st, mkChainlinkContractsMonitor url evmNodes nodeConfigs parentId
          = .ok st →
        st.nodeAddress = [] ∧ st.contractsData = []
          ∧ st.nodeContracts = ([] : NodeContractsMap)
          ∧ st.lastBlockMonitored = [] ∧ st.lastRoundObserved = []) := by
  by_cases h : evmNodes.length = 0 ∨ nodeConfigs.length = 0
  · have herr : mkChainlinkContractsMonitor url evmNodes nodeConfigs parentId
        = .error (.componentNotGivenEnoughDataSources
          (if evmNodes.length = 0 then "evm_nodes" else "node_configs")) := by
      unfold mkChainlinkContractsMonitor
      rw [if_pos h]
    refine ⟨?_, ?_, ?_, ?_⟩
    · constructor
      · intro _
        rcases h with h | h
        · exact Or.inl (List.length_eq_zero.mp h)
        · exact Or.inr (List.length_eq_zero.mp h)
      · intro _
        exact ⟨_, herr⟩
    · intro he
      rw [herr, he]
      simp
    · intro hne he
      rw [herr]
      have h2 : ¬evmNodes.length = 0 := fun hh =>
        hne (List.length_eq_zero.mp hh)
      simp [h2, he]
    · intro st hst
      rw [herr] at hst
      cases hst
  · have hok : mkChainlinkContractsMonitor url evmNodes nodeConfigs parentId
        = .ok { contractsUrl := url, parentId := parentId,
                evmNodes := evmNodes, nodeConfigs := nodeConfigs,
                nodeAddress := [], contractsData := [], nodeContracts := [],
                lastBlockMonitored := [], lastRoundObserved := [] } := by
      unfold mkChainlinkContractsMonitor
      rw [if_neg h]
    push_neg at h
    refine ⟨?_, ?_, ?_, ?_⟩
    · constructor
      · rintro ⟨e, he⟩
        rw [hok] at he
        cases he
      · intro hc
        rcases hc with hc | hc
        · exact absurd (by simp [hc]) h.1
        · exact absurd (by simp [hc]) h.2
    · intro he
      exact absurd (by simp [he]) h.1
    · intro _ he
      exact absurd (by simp [he]) h.2
    · intro st hst
      rw [hok] at hst
      cases hst
      exact ⟨rfl, rfl, rfl, rfl, rfl⟩

/-- Witness for C9: empty `evm_nodes` raise naming that field; non-empty
lists construct a monitor with empty state. -/
theorem constructor_data_sources_witness :
    mkChainlinkContractsMonitor "url" [] [] "parent"
      = .error (.componentNotGivenEnoughDataSources "evm_nodes")
    ∧ (∀ st, mkChainlinkContractsMonitor "url" ["evm"] [c6Cfg] "parent"
          = .ok st → st.nodeAddress = [] ∧ st.contractsData = []
            ∧ st.nodeContracts = ([] : NodeContractsMap)
            ∧ st.lastBlockMonitored = [] ∧ st.lastRoundObserved = []) :=
  ⟨(constructor_data_sources "url" [] [] "parent").2.1 rfl,
   (constructor_data_sources "url" ["evm"] [c6Cfg] "parent").2.2.2⟩

/-- C10.  `_on_event_thrown`: a `deleted` event publishes the empty
mapping under the routing key derived from the file's path and the
normalized config root, and an event is dropped (nothing published) if
and only if it is not a `deleted` event and parsing the file failed. -/
theorem config_deleted_event (getRoutingKey : String → String → String)
    (normpath : String → String) (parse : String → Option ConfigDict)
    (configDirectory : String) (event : FSEvent) :
    (event.eventType = "deleted" →
      onEventThrown getRoutingKey normpath parse configDirectory event
        = some (getRoutingKey event.srcPath (normpath configDirectory),
                ([] : ConfigDict)))
    ∧ (onEventThrown getRoutingKey normpath parse configDirectory event
          = none
        ↔ (event.eventType ≠ "deleted" ∧ parse event.srcPath = none)) := by
  by_cases hdel : event.eventType = "deleted"
  · refine ⟨fun _ => by simp [onEventThrown, hdel], ?_⟩
    simp [onEventThrown, hdel]
  · refine ⟨fun hc => absurd hc hdel, ?_⟩
    simp only [onEventThrown, hdel, if_false]
    cases hp : parse event.srcPath <;> simp [hdel, hp]

/-- Witness for C10: a deleted config file publishes `{}` under its
routing key; a modified file that fails to parse publishes nothing. -/
theorem config_deleted_event_witness :
    onEventThrown (fun p d => p ++ "@" ++ d) (fun d => d) (fun _ => none)
        "/configs" ⟨"deleted", "/configs/a.ini"⟩
      = some ("/configs/a.ini@/configs", ([] : ConfigDict))
    ∧ onEventThrown (fun p d => p ++ "@" ++ d) (fun d => d) (fun _ => none)
        "/configs" ⟨"modified", "/configs/a.ini"⟩
      = none :=
  ⟨(config_deleted_event (fun p d => p ++ "@" ++ d) (fun d => d)
      (fun _ => none) "/configs" ⟨"deleted", "/configs/a.ini"⟩).1 rfl,
   (config_deleted_event (fun p d => p ++ "@" ++ d) (fun d => d)
      (fun _ => none) "/configs" ⟨"modified", "/configs/a.ini"⟩).2.mpr
      ⟨by decide, rfl⟩⟩

theorem mem_of_lookup_eq_some {α : Type} (l : List (String × α))
    (k : String) (v : α) (h : l.lookup k = some v) : (k, v) ∈ l := by
  induction l with
  | nil => simp [List.lookup] at h
  | cons p l ih =>
      rcases p with ⟨k2, v2⟩
      by_cases hp : k = k2
      · subst hp
        simp only [List.lookup, beq_self_eq_true, Option.some.injEq] at h
        subst h
        exact List.mem_cons_self _ _
      · have h2 : (k == k2) = false := beq_eq_false_iff_ne.mpr hp
        simp only [List.lookup, h2] at h
        exact List.mem_cons_of_mem _ (ih h)

theorem bind_lookupE_ne {β : Type} (f : List (String × SubCfg)) (k : String)
    (g : SubCfg → Except AddCfgError β)
    (hg : ∀ c, g c ≠ Except.error AddCfgError.parentIdsMissMatch) :
    (lookupE f k >>= g) ≠ Except.error AddCfgError.parentIdsMissMatch := by
  unfold lookupE
  cases f.lookup k with
  | none => simp [Bind.bind, Except.bind]
  | some c => simpa [Bind.bind, Except.bind] using hg c

theorem buildConfig_ne_missMatch (parentId : String)
    (filtered : List (String × SubCfg)) :
    buildChainlinkNodeAlertsConfig parentId filtered
      ≠ Except.error AddCfgError.parentIdsMissMatch := by
  unfold buildChainlinkNodeAlertsConfig
  apply bind_lookupE_ne; intro c1
  apply bind_lookupE_ne; intro c2
  apply bind_lookupE_ne; intro c3
  apply bind_lookupE_ne; intro c4
  apply bind_lookupE_ne; intro c5
  apply bind_lookupE_ne; intro c6
  apply bind_lookupE_ne; intro c7
  apply bind_lookupE_ne; intro c8
  apply bind_lookupE_ne; intro c9
  apply bind_lookupE_ne; intro c10
  apply bind_lookupE_ne; intro c11
  apply bind_lookupE_ne; intro c12
  simp [pure, Except.pure]

/-- C4.  `add_new_config` raises
`ParentIdsMissMatchInAlertsConfiguration` if and only if two sub-records
of the payload carry different `parent_id`s (given the payload has its
sub-record `1`, as every payload produced by the config pipeline does),
and whenever the call raises — this or any other error — the factory's
stored configs, in particular the one for `chain_name`, are unchanged. -/
theorem add_new_config_parent_id
    (configs : List (String × ChainlinkNodeAlertsConfig))
    (chainName : String) (sentConfigs : List (String × SubCfg))
    (first : SubCfg) (h1 : sentConfigs.lookup "1" = some first) :
    ((addNewConfig configs chainName sentConfigs).2
        = Except.error AddCfgError.parentIdsMissMatch
      ↔ ∃ p ∈ sentConfigs, ∃ q ∈ sentConfigs,
          p.2.parentId ≠ q.2.parentId)
    ∧ (∀ e, (addNewConfig configs chainName sentConfigs).2
          = Except.error e →
        (addNewConfig configs chainName sentConfigs).1 = configs) := by
  by_cases hany : sentConfigs.any
      (fun p => !(p.2.parentId == first.parentId))
  · have hres : addNewConfig configs chainName sentConfigs
        = (configs, Except.error AddCfgError.parentIdsMissMatch) := by
      unfold addNewConfig
      rw [h1]
      simp only [hany, if_true]
    rw [hres]
    constructor
    · constructor
      · intro _
        rcases List.any_eq_true.mp hany with ⟨p, hp, hb⟩
        have hb2 : p.2.parentId ≠ first.parentId := by
          intro he
          simp [he] at hb
        exact ⟨p, hp, ("1", first), mem_of_lookup_eq_some _ _ _ h1, hb2⟩
      · intro _
        rfl
    · intro e _
      rfl
  · have hall : ∀ p ∈ sentConfigs, p.2.parentId = first.parentId := by
      intro p hp
      by_contra hne
      exact hany (List.any_eq_true.mpr
        ⟨p, hp, by simp [beq_eq_false_iff_ne.mpr hne]⟩)
    constructor
    · constructor
      · intro hres
        exfalso
        unfold addNewConfig at hres
        rw [h1] at hres
        simp only [hany, Bool.false_eq_true, if_false] at hres
        rcases hb : buildChainlinkNodeAlertsConfig first.parentId
            (sentConfigs.foldl (fun acc p => dictInsert acc p.2.name p.2) [])
          with e | cfg
        · rw [hb] at hres
          simp only [Except.error.injEq] at hres
          rw [hres] at hb
          exact buildConfig_ne_missMatch _ _ hb
        · rw [hb] at hres
          simp at hres
      · rintro ⟨p, hp, q, hq, hne⟩
        exfalso
        exact hne ((hall p hp).trans (hall q hq).symm)
    · intro e he
      unfold addNewConfig at he ⊢
      rw [h1] at he ⊢
      simp only [hany, Bool.false_eq_true, if_false] at he ⊢
      rcases hb : buildChainlinkNodeAlertsConfig first.parentId
          (sentConfigs.foldl (fun acc p => dictInsert acc p.2.name p.2) [])
        with e2 | cfg
      · rw [hb]
      · rw [hb] at he
        simp at he

/-- Witness for C4 on `c4Sent` (sub-record `1` has parent `A`, record
`2` has parent `B`): the call raises the parent-id mismatch and leaves
the stored configs unchanged. -/
theorem add_new_config_parent_id_witness :
    (addNewConfig [] "chain" c4Sent).2
      = Except.error AddCfgError.parentIdsMissMatch
    ∧ (addNewConfig [] "chain" c4Sent).1 = [] := by
  have h := add_new_config_parent_id [] "chain" c4Sent ⟨"A", "n1"⟩ (by decide)
  have hmm := h.1.mpr ⟨("1", ⟨"A", "n1"⟩), by decide, ("2", ⟨"B", "n2"⟩),
    by decide, by decide⟩
  exact ⟨hmm, h.2 AddCfgError.parentIdsMissMatch hmm⟩

theorem any_dictInsert_self {α : Type} (l : List (String × α)) (k : String)
    (v : α) : (dictInsert l k v).any (fun p => p.1 == k) = true := by
  induction l with
  | nil => simp [dictInsert]
  | cons p l ih =>
      by_cases hp : p.1 == k
      · simp [dictInsert, hp]
      · simp [dictInsert, hp, ih]

theorem any_dictInsert_other {α : Type} (l : List (String × α))
    (k k2 : String) (v : α) (h : k2 ≠ k) :
    (dictInsert l k v).any (fun p => p.1 == k2)
      = l.any (fun p => p.1 == k2) := by
  induction l with
  | nil => simp [dictInsert, beq_eq_false_iff_ne.mpr (Ne.symm h)]
  | cons p l ih =>
      by_cases hp : p.1 = k
      · have h1 : (p.1 == k) = true := by simp [hp]
        simp [dictInsert, h1, hp]
      · have h1 : (p.1 == k) = false := beq_eq_false_iff_ne.mpr hp
        simp [dictInsert, h1, ih]

theorem getNodesAddressGo_err (configs : List NodeConfigM)
    (acc : List (String × String)) (err : Bool)
    (hdisj : ∀ c ∈ configs, acc.any (fun p => p.1 == c.nodeId) = false)
    (hnodup : configs.Pairwise (fun a b => a.nodeId ≠ b.nodeId)) :
    (getNodesAddressGo configs acc err).2
      = (err || configs.any
          (fun c => !(addressFromSources c.promSources).isSome)) := by
  induction configs generalizing acc err with
  | nil => simp [getNodesAddressGo]
  | cons c rest ih =>
      have hcbase : acc.any (fun p => p.1 == c.nodeId) = false :=
        hdisj c (List.mem_cons_self c rest)
      rcases List.pairwise_cons.mp hnodup with ⟨hcrest, hrest⟩
      cases haddr : addressFromSources c.promSources with
      | some a =>
          have hmem : (dictInsert acc c.nodeId a).any
              (fun p => p.1 == c.nodeId) = true :=
            any_dictInsert_self acc c.nodeId a
          simp only [getNodesAddressGo, haddr, hmem, if_true]
          rw [ih (dictInsert acc c.nodeId a) err ?_ hrest]
          · simp [haddr]
          · intro r hr
            rw [any_dictInsert_other acc c.nodeId r.nodeId a
              (Ne.symm (hcrest r hr))]
            exact hdisj r (List.mem_cons_of_mem c hr)
      | none =>
          simp only [getNodesAddressGo, haddr, hcbase, Bool.false_eq_true,
            if_false]
          rw [ih acc true (fun r hr => hdisj r (List.mem_cons_of_mem c hr))
            hrest]
          simp [haddr]

theorem getNodesAddress_err (configs : List NodeConfigM)
    (hnodup : configs.Pairwise (fun a b => a.nodeId ≠ b.nodeId)) :
    (getNodesAddress configs).2
      = configs.any (fun c => !(addressFromSources c.promSources).isSome) := by
  unfold getNodesAddress
  rw [getNodesAddressGo_err configs [] false (by simp) hnodup]
  simp

theorem monitorTick_gates (env : TickEnv) (st : CLMonitorState) :
    (monitorTick env st).weiDidTask
        = (env.weiGateElapsed && env.catalogFetch.isSome)
    ∧ (monitorTick env st).addrDidTask
        = (env.addrGateElapsed && !(getNodesAddress st.nodeConfigs).2)
    ∧ (monitorTick env st).reFilter
        = ((env.weiGateElapsed && env.catalogFetch.isSome)
            || env.addrGateElapsed) := by
  refine ⟨?_, ?_, ?_⟩ <;>
    cases hw : env.weiGateElapsed <;> cases hc : env.catalogFetch <;>
    cases ha : env.addrGateElapsed <;>
    simp [monitorTick, hw, hc, ha]

theorem heartbeat_notin_nodeLoop (env : TickEnv)
    (entries : List (String × String)) (evs : List TickEvent)
    (h : TickEvent.heartbeat ∉ evs) :
    TickEvent.heartbeat ∉ (monitorNodeLoop env entries evs).1 := by
  induction entries generalizing evs with
  | nil => simpa [monitorNodeLoop] using h
  | cons p rest ih =>
      rcases p with ⟨nodeId, addr⟩
      simp only [monitorNodeLoop]
      cases hg : env.getDataOutcome nodeId with
      | none => exact ih evs h
      | some u =>
          cases hq : env.processRetrievedFails nodeId with
          | true => simpa using ih evs h
          | false =>
              cases hd : env.deliverOk (.nodeData nodeId) with
              | true =>
                  simp only [Bool.false_eq_true, if_false, if_true]
                  exact ih (evs ++ [.sent (.nodeData nodeId)]) (by simp [h])
              | false => simpa using h

theorem tickBody_raised_no_heartbeat (env : TickEnv)
    (dataRetrievalFailed : Bool) (st2 : CLMonitorState) (reFilter : Bool) :
    (tickBody env dataRetrievalFailed st2 reFilter).2.2 = true →
      TickEvent.heartbeat
        ∉ (tickBody env dataRetrievalFailed st2 reFilter).2.1 := by
  simp only [tickBody, tickSendHeartbeat]
  repeat' split
  all_goals intro hr
  all_goals try exact heartbeat_notin_nodeLoop env _ [] (by simp)
  all_goals simp_all

theorem raised_no_heartbeat (env : TickEnv) (st : CLMonitorState) :
    (monitorTick env st).raised = true →
      TickEvent.heartbeat ∉ (monitorTick env st).events := by
  simp only [monitorTick]
  exact tickBody_raised_no_heartbeat env _ _ _

/-- Counterexample to C5 as stated.  On `c5Env` (no synced EVM source
selectable, everything else healthy) the tick publishes the
`NoSyncedSource` error payload and then still emits the heartbeat,
instead of returning without one. -/
theorem no_synced_source_counterexample :
    (monitorTick c5Env emptyCLState).events
        = [.sent .noSyncedSource, .heartbeat]
      ∧ TickEvent.heartbeat ∈ (monitorTick c5Env emptyCLState).events
      ∧ (monitorTick c5Env emptyCLState).raised = false := by
  refine ⟨by decide, by decide, by decide⟩

/-- C5 (amended).  In a `_monitor` tick in which no synced EVM RPC
source can be selected (and the catalog fetch did not already fail), the
monitor publishes a single `NoSyncedSource` error payload for the chain,
skips contract-metric retrieval, and still emits the heartbeat: the
heartbeat is skipped only when processing the error payload fails (early
return) or a publish raises `MessageWasNotDeliveredException`. -/
theorem no_synced_source_tick (env : TickEnv) (st : CLMonitorState)
    (hsel : env.selectedNode = none)
    (hcat : ¬(env.weiGateElapsed = true ∧ env.catalogFetch = none))
    (hpe : env.processErrorFails = false)
    (hd : env.deliverOk .noSyncedSource = true)
    (hh : env.heartbeatDeliverOk = true) :
    (monitorTick env st).events = [.sent .noSyncedSource, .heartbeat]
      ∧ (monitorTick env st).raised = false := by
  have hbody : ∀ st2 rf, tickBody env false st2 rf
      = (st2, [.sent .noSyncedSource, .heartbeat], false) := by
    intro st2 rf
    simp [tickBody, tickSendHeartbeat, hsel, hpe, hd, hh]
  cases hw : env.weiGateElapsed with
  | false =>
      simp only [monitorTick, hw, Bool.false_eq_true, if_false]
      rw [hbody]
      exact ⟨rfl, rfl⟩
  | true =>
      cases hc : env.catalogFetch with
      | none => exact absurd ⟨hw, hc⟩ hcat
      | some cd =>
          simp only [monitorTick, hw, hc, if_true]
          rw [hbody]
          exact ⟨rfl, rfl⟩

/-- Witness for C5 (amended) on `c5Env`. -/
theorem no_synced_source_tick_witness :
    (monitorTick c5Env emptyCLState).events
        = [.sent .noSyncedSource, .heartbeat]
      ∧ (monitorTick c5Env emptyCLState).raised = false :=
  no_synced_source_tick c5Env emptyCLState rfl
    (by intro h; exact absurd h.1 (by decide)) rfl rfl rfl

/-- C6.  In every `_monitor` tick: the wei-watchers gate's `did_task`
runs exactly when the gate was elapsed and the catalog fetch succeeded;
the address gate's `did_task` runs exactly when the gate was elapsed and
`_get_nodes_address` reported no error — which, for configs with
distinct node ids, means every node's address was obtained; either
successful retrieval (a fetched catalog, or an elapsed address gate)
sets `re_filter`; and with `re_filter` set, a selected source and a
successful filter call, the participating contracts are rebuilt to the
filter's result. -/
theorem refresh_gates (env : TickEnv) (st : CLMonitorState) :
    ((monitorTick env st).weiDidTask
        = (env.weiGateElapsed && env.catalogFetch.isSome))
    ∧ ((monitorTick env st).addrDidTask
        = (env.addrGateElapsed && !(getNodesAddress st.nodeConfigs).2))
    ∧ (st.nodeConfigs.Pairwise (fun a b => a.nodeId ≠ b.nodeId) →
        (monitorTick env st).addrDidTask
          = (env.addrGateElapsed
              && st.nodeConfigs.all
                  (fun c => (addressFromSources c.promSources).isSome)))
    ∧ ((env.weiGateElapsed && env.catalogFetch.isSome) = true
          ∨ env.addrGateElapsed = true →
        (monitorTick env st).reFilter = true)
    ∧ (∀ u nc, env.selectedNode = some u → env.filterOutcome = some nc →
        ¬(env.weiGateElapsed = true ∧ env.catalogFetch = none) →
        (monitorTick env st).reFilter = true →
        (monitorTick env st).state.nodeContracts = nc) := by
  obtain ⟨hwei, haddr, href⟩ := monitorTick_gates env st
  refine ⟨hwei, haddr, ?_, ?_, ?_⟩
  · intro hnodup
    rw [haddr, getNodesAddress_err st.nodeConfigs hnodup]
    cases env.addrGateElapsed <;> simp [List.all_eq_not_any_not]
  · intro h
    rw [href]
    rcases h with h | h <;> simp [h]
  · intro u nc hs hf hcat hrf
    rw [href] at hrf
    have hbody : ∀ st2, (tickBody env false st2 true).1.nodeContracts
        = nc := by
      intro st2
      simp only [tickBody, tickSendHeartbeat, hs, hf, if_true,
        Bool.not_false]
      repeat' split
      all_goals simp
    cases hw : env.weiGateElapsed with
    | false =>
        have ha : env.addrGateElapsed = true := by
          rw [hw] at hrf
          simpa using hrf
        simp only [monitorTick, hw, ha, Bool.false_eq_true, if_false,
          if_true, Bool.false_or]
        exact hbody _
    | true =>
        cases hc : env.catalogFetch with
        | none => exact absurd ⟨hw, hc⟩ hcat
        | some cd =>
            simp only [monitorTick, hw, hc, if_true, Bool.true_or]
            exact hbody _

/-- Witness for C6 on `c6Env`/`c6St`: both gates elapsed, catalog fetch
succeeded, the single node's address obtained, a source selected and the
filter returning a catalog for `node1`. -/
theorem refresh_gates_witness :
    (monitorTick c6Env c6St).weiDidTask = true
      ∧ (monitorTick c6Env c6St).addrDidTask = true
      ∧ (monitorTick c6Env c6St).reFilter = true
      ∧ (monitorTick c6Env c6St).state.nodeContracts
          = [("node1", ([], []))] := by
  have h := refresh_gates c6Env c6St
  refine ⟨?_, ?_, ?_, ?_⟩
  · rw [h.1]
    decide
  · rw [h.2.2.1 (by decide)]
    decide
  · exact h.2.2.2.1 (by decide)
  · exact h.2.2.2.2 "evm" [("node1", ([], []))] rfl rfl
      (by intro hx; exact absurd hx.2 (by decide))
      (h.2.2.2.1 (by decide))

/-- Counterexample to C7 as stated.  When `monitor.start()` propagates
a `pika.exceptions.AMQPConnectionError`, `start_monitor`'s supervising
loop logs the stopped message and re-enters the loop immediately: it
restarts the monitor without any sleep (the `RESTART_SLEEPING_PERIOD`
sleep happens only for unexpected exceptions). -/
theorem connection_error_no_sleep_counterexample :
    superviseStep .amqpConnectionError = .restartNoSleep
      ∧ superviseStep .amqpConnectionError ≠ .restartAfterSleep := by
  refine ⟨rfl, by decide⟩

/-- C7 (amended).  `MessageWasNotDeliveredException` raised by a
monitoring round is caught and logged by `Monitor.start`, such a round
emits no heartbeat, and the loop falls through to the monitoring-period
sleep and continues; an `AMQPConnectionError` propagates out of
`start()` and `start_monitor`'s supervising loop restarts the monitor
immediately, without the restart sleep (that sleep is reserved for
unexpected exceptions). -/
theorem monitor_exception_dispatch :
    startStep (.raised .messageWasNotDelivered) = .sleepThenLoop
    ∧ (∀ env st, (monitorTick env st).raised = true →
        TickEvent.heartbeat ∉ (monitorTick env st).events)
    ∧ startStep (.raised .amqpConnectionError)
        = .propagate .amqpConnectionError
    ∧ superviseStep .amqpConnectionError = .restartNoSleep
    ∧ superviseStep .unexpected = .restartAfterSleep :=
  ⟨rfl, raised_no_heartbeat, rfl, rfl, rfl⟩

/-- Witness for C7 (amended) on `c7Env`: the undeliverable publish makes
the tick raise, and no heartbeat was emitted in it. -/
theorem monitor_exception_dispatch_witness :
    (monitorTick c7Env emptyCLState).raised = true
      ∧ TickEvent.heartbeat ∉ (monitorTick c7Env emptyCLState).events :=
  ⟨by decide, monitor_exception_dispatch.2.1 c7Env emptyCLState (by decide)⟩

/-- Witness for C2 (amended) at the concrete event of `c2Env`. -/
theorem v4_absent_observer_witness :
    processV4Events (fun _ => ⟨5, 42, 0, 99, 5⟩) 3 1 ([] ++ [c2Event]) [] none
      = ([{ roundId := 5, roundAnswer := 42, roundTimestamp := 99,
            answeredInRound := 5, nodeSubmission := none,
            noOfObservations := 2, noOfTransmitters := 3 }], none) := by
  rw [v4_absent_observer (fun _ => ⟨5, 42, 0, 99, 5⟩) 3 1 [] c2Event [] none
    (by decide)]
  decide
